import Mathlib

/-!
Shallow embedding of yuzu's `src/core/crypto/key_manager.cpp` (namespace
`Core::Crypto`): the key index model, the two key stores, the key-file
codec's line handling, and the derivation routines
(`GenerateKeyEncryptionKey`, `DeriveSDSeed`, `DeriveSDKeys`).

Bytes are modelled as `Nat` (values < 256 where produced by the code),
fixed-size byte arrays (`Key128`, `Key256`) as `List Nat` of length 16
resp. 32.  The AES-ECB block decrypt provided by `AESCipher` is an opaque
primitive in the source (`core/crypto/aes_util.h` is not part of the core
under study), so it is passed as an explicit function parameter
`dec : key -> ciphertext block -> plaintext block`.
-/

namespace Core.Crypto

/-- A 128-bit key value: 16 bytes. -/
abbrev Key128 := List Nat

/-- A 256-bit key value: 32 bytes. -/
abbrev Key256 := List Nat

/-- The all-zero 16-byte value, `Key128{}` in the source. -/
def zeroKey128 : Key128 := List.replicate 16 0

/-- The all-zero 32-byte value, `Key256{}` in the source. -/
def zeroKey256 : Key256 := List.replicate 32 0

/-- Categories of 128-bit key slots (`enum class S128KeyType`). -/
inductive S128KeyType
  | Master
  | Package1
  | Package2
  | Titlekey
  | Titlekek
  | ETicketRSAKek
  | KeyArea
  | Source
  | SDSeed
deriving DecidableEq

/-- Categories of 256-bit key slots (`enum class S256KeyType`). -/
inductive S256KeyType
  | Header
  | SDKeySource
deriving DecidableEq

/-- Sub-purposes for `S128KeyType::KeyArea` (`enum class KeyAreaKeyType`). -/
inductive KeyAreaKeyType
  | Application
  | Ocean
  | System
deriving DecidableEq

/-- Sub-purposes for `S128KeyType::Source` (`enum class SourceKeyType`). -/
inductive SourceKeyType
  | SDKEK
  | AESKEKGeneration
  | AESKeyGeneration
deriving DecidableEq

/-- Sub-purposes for `S256KeyType::SDKeySource` (`enum class SDKeyType`). -/
inductive SDKeyType
  | Save
  | NCA
deriving DecidableEq

/-- The `static_cast<u64>` of a `KeyAreaKeyType` enumerator.  The header
declaring the enum is outside the files under study; the encoding is an
injective assignment in declaration order, which is all the code relies on
(the values only serve as map-key components). -/
def KeyAreaKeyType.u64cast : KeyAreaKeyType → Nat
  | .Application => 0
  | .Ocean => 1
  | .System => 2

/-- The `static_cast<u64>` of a `SourceKeyType` enumerator (see
`KeyAreaKeyType.u64cast`). -/
def SourceKeyType.u64cast : SourceKeyType → Nat
  | .SDKEK => 0
  | .AESKEKGeneration => 1
  | .AESKeyGeneration => 2

/-- The `static_cast<u64>` of a `SDKeyType` enumerator (see
`KeyAreaKeyType.u64cast`). -/
def SDKeyType.u64cast : SDKeyType → Nat
  | .Save => 0
  | .NCA => 1

/-- `KeyIndex<S128KeyType>`: the composite identity of a 128-bit key slot. -/
structure KeyIndex128 where
  type : S128KeyType
  field1 : Nat
  field2 : Nat
deriving DecidableEq

/-- `KeyIndex<S256KeyType>`: the composite identity of a 256-bit key slot. -/
structure KeyIndex256 where
  type : S256KeyType
  field1 : Nat
  field2 : Nat
deriving DecidableEq

/-- Association-list lookup, first match wins.  Models `map.find(k)` /
`map.at(k)` of the `boost::container::flat_map` stores: the physical layout
of the flat map is irrelevant, only which value (if any) a key maps to. -/
def lookupIdx {α β : Type} [DecidableEq α] : List (α × β) → α → Option β
  | [], _ => none
  | (j, v) :: rest, i => if j = i then some v else lookupIdx rest i

/-- `map[k] = v` on a `flat_map`: unconditional assignment, overwriting any
value the key previously had.  With first-match lookup, prepending the new
binding realises exactly that observable behaviour. -/
def mapAssign {α β : Type} [DecidableEq α] (m : List (α × β)) (i : α) (v : β) :
    List (α × β) :=
  (i, v) :: m

/-- The in-memory state of a `KeyManager`: the two key stores
(`s128_keys`, `s256_keys`).  File-system state is outside the model. -/
structure KeyManager where
  s128_keys : List (KeyIndex128 × Key128)
  s256_keys : List (KeyIndex256 × Key256)

/-- `KeyManager` with both stores empty. -/
def emptyKeyManager : KeyManager := ⟨[], []⟩

/-- `KeyManager::HasKey(S128KeyType, u64, u64)`:
`s128_keys.find({id, field1, field2}) != s128_keys.end()`. -/
def KeyManager.HasKey128 (k : KeyManager) (id : S128KeyType) (f1 f2 : Nat) :
    Bool :=
  (lookupIdx k.s128_keys ⟨id, f1, f2⟩).isSome

/-- `KeyManager::HasKey(S256KeyType, u64, u64)`. -/
def KeyManager.HasKey256 (k : KeyManager) (id : S256KeyType) (f1 f2 : Nat) :
    Bool :=
  (lookupIdx k.s256_keys ⟨id, f1, f2⟩).isSome

/-- `KeyManager::GetKey(S128KeyType, u64, u64)`: if `!HasKey` return the
value-initialised `Key128{}` (all zero), else `s128_keys.at(...)`. -/
def KeyManager.GetKey128 (k : KeyManager) (id : S128KeyType) (f1 f2 : Nat) :
    Key128 :=
  match lookupIdx k.s128_keys ⟨id, f1, f2⟩ with
  | none => zeroKey128
  | some v => v

/-- `KeyManager::GetKey(S256KeyType, u64, u64)`. -/
def KeyManager.GetKey256 (k : KeyManager) (id : S256KeyType) (f1 f2 : Nat) :
    Key256 :=
  match lookupIdx k.s256_keys ⟨id, f1, f2⟩ with
  | none => zeroKey256
  | some v => v

/-- `KeyManager::SetKey(S128KeyType, Key128, u64, u64)`: if the slot is
already occupied, return immediately (the store is untouched); otherwise
insert.  The `WriteKeyToFile` persistence side effect on the fresh-insert
path is file I/O and outside the store model. -/
def KeyManager.SetKey128 (k : KeyManager) (id : S128KeyType) (key : Key128)
    (f1 f2 : Nat) : KeyManager :=
  if (lookupIdx k.s128_keys ⟨id, f1, f2⟩).isSome then k
  else { k with s128_keys := mapAssign k.s128_keys ⟨id, f1, f2⟩ key }

/-- `KeyManager::SetKey(S256KeyType, Key256, u64, u64)`. -/
def KeyManager.SetKey256 (k : KeyManager) (id : S256KeyType) (key : Key256)
    (f1 f2 : Nat) : KeyManager :=
  if (lookupIdx k.s256_keys ⟨id, f1, f2⟩).isSome then k
  else { k with s256_keys := mapAssign k.s256_keys ⟨id, f1, f2⟩ key }

/-- `GenerateKeyEncryptionKey(source, master, kek_seed, key_seed)`: the
three-stage AES-ECB unwrap chain, translated statement by statement.
`dec key block` is the opaque single-block ECB decrypt
(`AESCipher<Key128>(key, Mode::ECB).Transcode(block, .., Op::Decrypt)`
on a 16-byte buffer). -/
def GenerateKeyEncryptionKey (dec : Key128 → Key128 → Key128)
    (source master kek_seed key_seed : Key128) : Key128 :=
  let out := dec master kek_seed
  let out2 := dec out source
  if key_seed ≠ zeroKey128 then dec out2 key_seed else out2

/-- The generic key-encryption-key derivation as the specification words it
(spec section 4.4, steps 1 to 3), for refinement comparison with
`GenerateKeyEncryptionKey`: unwrap `kekSeed` under `masterKey` giving
intermediate 1; unwrap `source` under intermediate 1 giving intermediate 2;
if `keySeed` is not the all-zero key, unwrap `keySeed` under
intermediate 2, otherwise intermediate 2 is the result. -/
def GenerateKeyEncryptionKeySpec (dec : Key128 → Key128 → Key128)
    (source masterKey kekSeed keySeed : Key128) : Key128 :=
  let intermediate1 := dec masterKey kekSeed
  let intermediate2 := dec intermediate1 source
  if keySeed = zeroKey128 then intermediate2 else dec intermediate2 keySeed

/-! ### Key file codec: line handling of `KeyManager::LoadFromFile` -/

/-- Value of one hex digit character.
Modelled from the spec: the hex string decoding of `Common::HexStringToArray`
lives in `common/hex_util.h`, which is not among the files under study; the
spec describes it as decoding a hex string (case-insensitive) into bytes of
a fixed width.  A non-digit contributes 0. -/
def hexCharValue (c : Char) : Nat :=
  if 48 ≤ c.toNat ∧ c.toNat ≤ 57 then c.toNat - 48
  else if 97 ≤ c.toNat ∧ c.toNat ≤ 102 then c.toNat - 97 + 10
  else if 65 ≤ c.toNat ∧ c.toNat ≤ 70 then c.toNat - 65 + 10
  else 0

/-- Decode `size` bytes from consecutive hex digit pairs; a too-short
input yields zero bytes for the missing tail (the output width is fixed).
Modelled from the spec (see `hexCharValue`). -/
def hexDecodeAux : Nat → List Char → List Nat
  | 0, _ => []
  | size + 1, c1 :: c2 :: rest =>
      (16 * hexCharValue c1 + hexCharValue c2) :: hexDecodeAux size rest
  | size + 1, _ => List.replicate (size + 1) 0

/-- `Common::HexStringToArray<Size>(str)`: a fixed-width byte array decoded
from a hex string.  Modelled from the spec (see `hexCharValue`). -/
def HexStringToArray (size : Nat) (s : List Char) : List Nat :=
  hexDecodeAux size s

/-- One `std::getline(stream, item, '=')` splitting pass over a line, as in
`LoadFromFile`: pieces are the maximal runs between separator characters,
except that a trailing separator does not open a final empty piece (after
consuming it the stream is at end-of-file, so the next `getline` fails). -/
def splitOnEqAux : List Char → List Char → List (List Char)
  | [], acc => [acc.reverse]
  | '=' :: rest, acc =>
      match rest with
      | [] => [acc.reverse]
      | _ :: _ => acc.reverse :: splitOnEqAux rest []
  | c :: rest, acc => splitOnEqAux rest (c :: acc)

/-- Split a line on the separator; on an empty line the first `getline`
already fails, producing no pieces at all. -/
def splitOnEq : List Char → List (List Char)
  | [] => []
  | c :: rest => splitOnEqAux (c :: rest) []

/-- `out.erase(std::remove(.., .., ' '), ..)`: drop every space. -/
def removeSpaces (l : List Char) : List Char :=
  l.filter (fun c => c ≠ ' ')

/-- `::tolower` on the C locale: map ASCII upper-case letters to lower
case, leave everything else unchanged. -/
def toLowerChar (c : Char) : Char :=
  if ('A' ≤ c ∧ c ≤ 'Z') then Char.ofNat (c.toNat + 32) else c

/-- Little-endian byte-list to integer, the effect of `std::memcpy` from a
byte array into a `u64` on the little-endian target the code assumes. -/
def lebytesToNat : List Nat → Nat
  | [] => 0
  | b :: rest => b + 256 * lebytesToNat rest

/-- Integer to `len` little-endian bytes, the effect of `std::memcpy` from
a `u64` into a byte array. -/
def natToLEBytes : Nat → Nat → List Nat
  | 0, _ => []
  | len + 1, n => n % 256 :: natToLEBytes len (n / 256)

/-- The `Titlekey` index built by the title-key branch of `LoadFromFile`
from the 16 decoded rights-identifier bytes: `memcpy` turns them into
`u128 rights_id` (two little-endian `u64` halves, `rights_id[0]` from bytes
0..8 and `rights_id[1]` from bytes 8..16), and the slot used is
`{S128KeyType::Titlekey, rights_id[1], rights_id[0]}`. -/
def titleKeyIndexOfRightsId (raw : List Nat) : KeyIndex128 :=
  { type := S128KeyType.Titlekey,
    field1 := lebytesToNat ((raw.drop 8).take 8),
    field2 := lebytesToNat (raw.take 8) }

/-- The 16 rights-identifier bytes rebuilt by the `Titlekey` branch of
`KeyManager::SetKey(S128KeyType, ...)` before serialization:
`memcpy(rights_id.data(), &field2, 8)` then
`memcpy(rights_id.data() + 8, &field1, 8)`. -/
def rightsIdOfTitleKeyIndex (i : KeyIndex128) : List Nat :=
  natToLEBytes 8 i.field2 ++ natToLEBytes 8 i.field1

/-- `KeyManager::s128_file_id`: canonical file names of 128-bit slots. -/
def s128_file_id : List (List Char × KeyIndex128) := [
  ("master_key_00".toList, ⟨S128KeyType.Master, 0, 0⟩),
  ("master_key_01".toList, ⟨S128KeyType.Master, 1, 0⟩),
  ("master_key_02".toList, ⟨S128KeyType.Master, 2, 0⟩),
  ("master_key_03".toList, ⟨S128KeyType.Master, 3, 0⟩),
  ("master_key_04".toList, ⟨S128KeyType.Master, 4, 0⟩),
  ("package1_key_00".toList, ⟨S128KeyType.Package1, 0, 0⟩),
  ("package1_key_01".toList, ⟨S128KeyType.Package1, 1, 0⟩),
  ("package1_key_02".toList, ⟨S128KeyType.Package1, 2, 0⟩),
  ("package1_key_03".toList, ⟨S128KeyType.Package1, 3, 0⟩),
  ("package1_key_04".toList, ⟨S128KeyType.Package1, 4, 0⟩),
  ("package2_key_00".toList, ⟨S128KeyType.Package2, 0, 0⟩),
  ("package2_key_01".toList, ⟨S128KeyType.Package2, 1, 0⟩),
  ("package2_key_02".toList, ⟨S128KeyType.Package2, 2, 0⟩),
  ("package2_key_03".toList, ⟨S128KeyType.Package2, 3, 0⟩),
  ("package2_key_04".toList, ⟨S128KeyType.Package2, 4, 0⟩),
  ("titlekek_00".toList, ⟨S128KeyType.Titlekek, 0, 0⟩),
  ("titlekek_01".toList, ⟨S128KeyType.Titlekek, 1, 0⟩),
  ("titlekek_02".toList, ⟨S128KeyType.Titlekek, 2, 0⟩),
  ("titlekek_03".toList, ⟨S128KeyType.Titlekek, 3, 0⟩),
  ("titlekek_04".toList, ⟨S128KeyType.Titlekek, 4, 0⟩),
  ("eticket_rsa_kek".toList, ⟨S128KeyType.ETicketRSAKek, 0, 0⟩),
  ("key_area_key_application_00".toList,
    ⟨S128KeyType.KeyArea, 0, KeyAreaKeyType.Application.u64cast⟩),
  ("key_area_key_application_01".toList,
    ⟨S128KeyType.KeyArea, 1, KeyAreaKeyType.Application.u64cast⟩),
  ("key_area_key_application_02".toList,
    ⟨S128KeyType.KeyArea, 2, KeyAreaKeyType.Application.u64cast⟩),
  ("key_area_key_application_03".toList,
    ⟨S128KeyType.KeyArea, 3, KeyAreaKeyType.Application.u64cast⟩),
  ("key_area_key_application_04".toList,
    ⟨S128KeyType.KeyArea, 4, KeyAreaKeyType.Application.u64cast⟩),
  ("key_area_key_ocean_00".toList,
    ⟨S128KeyType.KeyArea, 0, KeyAreaKeyType.Ocean.u64cast⟩),
  ("key_area_key_ocean_01".toList,
    ⟨S128KeyType.KeyArea, 1, KeyAreaKeyType.Ocean.u64cast⟩),
  ("key_area_key_ocean_02".toList,
    ⟨S128KeyType.KeyArea, 2, KeyAreaKeyType.Ocean.u64cast⟩),
  ("key_area_key_ocean_03".toList,
    ⟨S128KeyType.KeyArea, 3, KeyAreaKeyType.Ocean.u64cast⟩),
  ("key_area_key_ocean_04".toList,
    ⟨S128KeyType.KeyArea, 4, KeyAreaKeyType.Ocean.u64cast⟩),
  ("key_area_key_system_00".toList,
    ⟨S128KeyType.KeyArea, 0, KeyAreaKeyType.System.u64cast⟩),
  ("key_area_key_system_01".toList,
    ⟨S128KeyType.KeyArea, 1, KeyAreaKeyType.System.u64cast⟩),
  ("key_area_key_system_02".toList,
    ⟨S128KeyType.KeyArea, 2, KeyAreaKeyType.System.u64cast⟩),
  ("key_area_key_system_03".toList,
    ⟨S128KeyType.KeyArea, 3, KeyAreaKeyType.System.u64cast⟩),
  ("key_area_key_system_04".toList,
    ⟨S128KeyType.KeyArea, 4, KeyAreaKeyType.System.u64cast⟩),
  ("sd_card_kek_source".toList,
    ⟨S128KeyType.Source, SourceKeyType.SDKEK.u64cast, 0⟩),
  ("aes_kek_generation_source".toList,
    ⟨S128KeyType.Source, SourceKeyType.AESKEKGeneration.u64cast, 0⟩),
  ("aes_key_generation_source".toList,
    ⟨S128KeyType.Source, SourceKeyType.AESKeyGeneration.u64cast, 0⟩),
  ("sd_seed".toList, ⟨S128KeyType.SDSeed, 0, 0⟩)]

/-- `KeyManager::s256_file_id`: canonical file names of 256-bit slots. -/
def s256_file_id : List (List Char × KeyIndex256) := [
  ("header_key".toList, ⟨S256KeyType.Header, 0, 0⟩),
  ("sd_card_save_key_source".toList,
    ⟨S256KeyType.SDKeySource, SDKeyType.Save.u64cast, 0⟩),
  ("sd_card_nca_key_source".toList,
    ⟨S256KeyType.SDKeySource, SDKeyType.NCA.u64cast, 0⟩)]

/-- `map.find(name)` on a name table (exact-match lookup). -/
def lookupName {α : Type} : List (List Char × α) → List Char → Option α
  | [], _ => none
  | (n, i) :: rest, name => if n = name then some i else lookupName rest name

/-- The body of `LoadFromFile`'s `while (std::getline(file, line))` loop
for one line: split on the separator, require exactly two pieces, strip
spaces from both; in title-key mode decode name and value and assign at the
`Titlekey` index; otherwise lower-case the name, resolve it through
`s128_file_id` then `s256_file_id`, and assign the decoded value at the
resolved index (`s128_keys[idx] = key` and `s256_keys[idx] = key` are
unconditional map assignments). -/
def KeyManager.LoadLine (k : KeyManager) (line : List Char)
    (is_title_keys : Bool) : KeyManager :=
  let out := splitOnEq line
  if out.length ≠ 2 then k
  else
    let name := removeSpaces (out.getD 0 [])
    let value := removeSpaces (out.getD 1 [])
    if is_title_keys then
      let rights_id_raw := HexStringToArray 16 name
      let key := HexStringToArray 16 value
      { k with s128_keys :=
          mapAssign k.s128_keys (titleKeyIndexOfRightsId rights_id_raw) key }
    else
      let lname := name.map toLowerChar
      match lookupName s128_file_id lname with
      | some idx =>
          { k with s128_keys :=
              mapAssign k.s128_keys idx (HexStringToArray 16 value) }
      | none =>
          match lookupName s256_file_id lname with
          | some idx =>
              { k with s256_keys :=
                  mapAssign k.s256_keys idx (HexStringToArray 32 value) }
          | none => k

/-- `KeyManager::LoadFromFile(filename, is_title_keys)` over the lines of
an already-opened file, processed front to back. -/
def KeyManager.LoadFromFile (k : KeyManager) (lines : List (List Char))
    (is_title_keys : Bool) : KeyManager :=
  lines.foldl (fun acc line => acc.LoadLine line is_title_keys) k

/-! ### `DeriveSDSeed`: marker scan over the system save blob -/

/-- `IOFile::ReadBytes` after a seek: the bytes actually delivered when
reading `n` bytes at `off` from a blob (fewer than `n` past the end). -/
def readBytes (blob : List Nat) (off n : Nat) : List Nat :=
  (blob.drop off).take n

/-- The destination of the final seed read: `Key128 seed{}` is
zero-initialised, so bytes past the end of the blob stay zero. -/
def padSeed (l : List Nat) : List Nat :=
  l ++ List.replicate (16 - l.length) 0

/-- The scan loop of `DeriveSDSeed`:
`for (; offset + 0x10 < save_43.GetSize(); ++offset)` reading the 16-byte
window at `offset` and breaking on `buffer == private_seed`.  Inside the
loop the window always fits entirely (offset + 16 < size), so the 16-byte
`buffer` is fully overwritten on every iteration.  `fuel` bounds the
recursion; `blob.length` steps always suffice. -/
def scanAux (blob marker : List Nat) : Nat → Nat → Option Nat
  | _, 0 => none
  | off, fuel + 1 =>
      if off + 16 < blob.length then
        if readBytes blob off 16 = marker then some off
        else scanAux blob marker (off + 1) fuel
      else none

/-- The offset at which the scan loop of `DeriveSDSeed` stops with a match,
if any; `none` means the loop ran off the end, in which case the check
`offset + 0x10 >= save_43.GetSize()` makes the function bail out. -/
def findOffset (blob marker : List Nat) : Option Nat :=
  scanAux blob marker 0 blob.length

/-- `DeriveSDSeed` on the contents of the two files (the system save blob
`save_43` and the SD `private` file): read the first 16 bytes of the
private file, failing unless exactly 16 arrive; scan the save blob for that
marker; on a match at `offset`, the seed is read at `offset + 0x10` into a
zero-initialised buffer.  The file-open failure paths are outside the
model (they also yield no seed). -/
def DeriveSDSeed (save_43 sd_private : List Nat) : Option Key128 :=
  if (readBytes sd_private 0 16).length = 16 then
    match findOffset save_43 (readBytes sd_private 0 16) with
    | some offset => some (padSeed (readBytes save_43 (offset + 16) 16))
    | none => none
  else none

/-! ### `DeriveSDKeys` -/

/-- The `Loader::ResultStatus` values `DeriveSDKeys` can return. -/
inductive ResultStatus
  | Success
  | ErrorMissingSDKEKSource
  | ErrorMissingAESKEKGenerationSource
  | ErrorMissingAESKeyGenerationSource
  | ErrorMissingSDSeed
  | ErrorMissingSDSaveKeySource
  | ErrorMissingSDNCAKeySource
deriving DecidableEq

/-- The seed-combination loop of `DeriveSDKeys`:
`source[i] ^= sd_seed[i & 0xF]` for every byte index `i` of the 32-byte
source (`i & 0xF` is `i mod 16` since 16 is a power of two). -/
def xorWithSeed (source sd_seed : List Nat) : List Nat :=
  (List.range source.length).map
    (fun i => Nat.xor (source.getD i 0) (sd_seed.getD (i % 16) 0))

/-- `cipher.Transcode` of a 32-byte buffer under a 128-bit key in ECB
mode: the two 16-byte blocks are decrypted independently with the same
key (`dec`), and the cipher object carries no state between calls. -/
def transcode256 (dec : Key128 → Key128 → Key128) (key : Key128)
    (data : Key256) : Key256 :=
  dec key (data.take 16) ++ dec key ((data.drop 16).take 16)

/-- `DeriveSDKeys(sd_keys, keys)`, translated check by check.  `sd_keys`
is the caller's in-out array, returned untouched on every error path; on
success it holds the two derived keys.  `keys.GetKey(S128KeyType::Master)`
uses the default generation/field arguments 0, 0. -/
def DeriveSDKeys (dec : Key128 → Key128 → Key128) (sd_keys : List Key256)
    (keys : KeyManager) : ResultStatus × List Key256 :=
  if keys.HasKey128 S128KeyType.Source SourceKeyType.SDKEK.u64cast 0 = false
  then (ResultStatus.ErrorMissingSDKEKSource, sd_keys)
  else if keys.HasKey128 S128KeyType.Source
      SourceKeyType.AESKEKGeneration.u64cast 0 = false
  then (ResultStatus.ErrorMissingAESKEKGenerationSource, sd_keys)
  else if keys.HasKey128 S128KeyType.Source
      SourceKeyType.AESKeyGeneration.u64cast 0 = false
  then (ResultStatus.ErrorMissingAESKeyGenerationSource, sd_keys)
  else
    let sd_kek_source :=
      keys.GetKey128 S128KeyType.Source SourceKeyType.SDKEK.u64cast 0
    let aes_kek_gen :=
      keys.GetKey128 S128KeyType.Source SourceKeyType.AESKEKGeneration.u64cast 0
    let aes_key_gen :=
      keys.GetKey128 S128KeyType.Source SourceKeyType.AESKeyGeneration.u64cast 0
    let master_00 := keys.GetKey128 S128KeyType.Master 0 0
    let sd_kek :=
      GenerateKeyEncryptionKey dec sd_kek_source master_00 aes_kek_gen
        aes_key_gen
    if keys.HasKey128 S128KeyType.SDSeed 0 0 = false
    then (ResultStatus.ErrorMissingSDSeed, sd_keys)
    else
      let sd_seed := keys.GetKey128 S128KeyType.SDSeed 0 0
      if keys.HasKey256 S256KeyType.SDKeySource SDKeyType.Save.u64cast 0 = false
      then (ResultStatus.ErrorMissingSDSaveKeySource, sd_keys)
      else if keys.HasKey256 S256KeyType.SDKeySource SDKeyType.NCA.u64cast 0
          = false
      then (ResultStatus.ErrorMissingSDNCAKeySource, sd_keys)
      else
        let sd_key_sources :=
          [keys.GetKey256 S256KeyType.SDKeySource SDKeyType.Save.u64cast 0,
           keys.GetKey256 S256KeyType.SDKeySource SDKeyType.NCA.u64cast 0]
        let combined := sd_key_sources.map (fun source => xorWithSeed source sd_seed)
        (ResultStatus.Success, combined.map (fun source => transcode256 dec sd_kek source))

/-! ### Helper lemmas -/

/-- A hex digit decodes to a value below 16. -/
lemma hexCharValue_lt_16 (c : Char) : hexCharValue c < 16 := by
  unfold hexCharValue
  split_ifs with h1 h2 h3 <;> omega

/-- `hexDecodeAux` always delivers exactly `size` bytes. -/
lemma hexDecodeAux_length (size : Nat) :
    ∀ s : List Char, (hexDecodeAux size s).length = size := by
  induction size with
  | zero => intro s; rfl
  | succ n ih =>
    intro s
    match s with
    | [] => simp [hexDecodeAux]
    | [c] => simp [hexDecodeAux]
    | c1 :: c2 :: rest => simp [hexDecodeAux, ih rest]

/-- Every byte `hexDecodeAux` delivers is below 256. -/
lemma hexDecodeAux_lt_256 (size : Nat) :
    ∀ s : List Char, ∀ b ∈ hexDecodeAux size s, b < 256 := by
  induction size with
  | zero => intro s b hb; simp [hexDecodeAux] at hb
  | succ n ih =>
    intro s b hb
    match s with
    | [] =>
      simp [hexDecodeAux] at hb
      omega
    | [c] =>
      simp [hexDecodeAux] at hb
      omega
    | c1 :: c2 :: rest =>
      simp only [hexDecodeAux, List.mem_cons] at hb
      rcases hb with hb | hb
      · have v1 := hexCharValue_lt_16 c1
        have v2 := hexCharValue_lt_16 c2
        omega
      · exact ih rest b hb

/-- `memcpy` into a `u64` and back: re-serialising the little-endian
integer of a byte list of length `len` (all bytes below 256) restores the
list. -/
lemma natToLEBytes_lebytesToNat :
    ∀ l : List Nat, (∀ b ∈ l, b < 256) →
      natToLEBytes l.length (lebytesToNat l) = l := by
  intro l
  induction l with
  | nil => intro _; rfl
  | cons b rest ih =>
    intro hlt
    have hb : b < 256 := hlt b (List.mem_cons_self b rest)
    have hmod : (b + 256 * lebytesToNat rest) % 256 = b := by
      rw [Nat.add_mul_mod_self_left, Nat.mod_eq_of_lt hb]
    have hdiv : (b + 256 * lebytesToNat rest) / 256 = lebytesToNat rest := by
      rw [Nat.add_mul_div_left _ _ (by norm_num : 0 < 256),
        Nat.div_eq_of_lt hb, Nat.zero_add]
    simp only [List.length_cons, lebytesToNat, natToLEBytes, hmod, hdiv,
      List.cons.injEq]
    exact ⟨trivial, ih (fun x hx => hlt x (List.mem_cons_of_mem b hx))⟩

/-- An absent 128-bit slot reads back as the all-zero value. -/
lemma getKey128_of_not_found (k : KeyManager) (id : S128KeyType) (f1 f2 : Nat)
    (h : lookupIdx k.s128_keys ⟨id, f1, f2⟩ = none) :
    k.GetKey128 id f1 f2 = zeroKey128 := by
  unfold KeyManager.GetKey128
  rw [h]

/-- An absent 256-bit slot reads back as the all-zero value. -/
lemma getKey256_of_not_found (k : KeyManager) (id : S256KeyType) (f1 f2 : Nat)
    (h : lookupIdx k.s256_keys ⟨id, f1, f2⟩ = none) :
    k.GetKey256 id f1 f2 = zeroKey256 := by
  unfold KeyManager.GetKey256
  rw [h]

/-- `HasKey` is the membership test of the lookup. -/
lemma hasKey128_eq_false_iff (k : KeyManager) (id : S128KeyType)
    (f1 f2 : Nat) :
    k.HasKey128 id f1 f2 = false ↔ lookupIdx k.s128_keys ⟨id, f1, f2⟩ = none := by
  unfold KeyManager.HasKey128
  cases lookupIdx k.s128_keys ⟨id, f1, f2⟩ <;> simp

/-- If the scan loop finds no window matching the marker anywhere in its
range, it terminates without a match. -/
lemma scanAux_eq_none (blob marker : List Nat)
    (hnone : ∀ k, k + 16 < blob.length → readBytes blob k 16 ≠ marker) :
    ∀ fuel off, scanAux blob marker off fuel = none := by
  intro fuel
  induction fuel with
  | zero => intro off; rfl
  | succ n ih =>
    intro off
    unfold scanAux
    by_cases hoff : off + 16 < blob.length
    · rw [if_pos hoff, if_neg (hnone off hoff)]
      exact ih (off + 1)
    · rw [if_neg hoff]

/-- If the window at `o` matches, `o` is within the loop range, and no
earlier window from `j` on matches, the scan loop started at `j` with
enough fuel stops exactly at `o`. -/
lemma scanAux_eq_some (blob marker : List Nat) (o : Nat)
    (ho : o + 16 < blob.length) (hm : readBytes blob o 16 = marker) :
    ∀ fuel j, j ≤ o → o + 1 ≤ j + fuel →
      (∀ k, j ≤ k → k < o → readBytes blob k 16 ≠ marker) →
      scanAux blob marker j fuel = some o := by
  intro fuel
  induction fuel with
  | zero =>
    intro j hj hfuel _
    omega
  | succ n ih =>
    intro j hj hfuel hfirst
    unfold scanAux
    have hjr : j + 16 < blob.length := by omega
    rw [if_pos hjr]
    by_cases hje : j = o
    · subst hje
      rw [if_pos hm]
    · have hjo : j < o := by omega
      rw [if_neg (hfirst j le_rfl hjo)]
      exact ih (j + 1) (by omega) (by omega)
        (fun k hk1 hk2 => hfirst k (by omega) hk2)

/-- The number of bytes delivered by a read. -/
lemma readBytes_length (blob : List Nat) (off n : Nat) :
    (readBytes blob off n).length = min n (blob.length - off) := by
  simp [readBytes]

/-- A full-length read needs no zero padding. -/
lemma padSeed_of_full (l : List Nat) (h : l.length = 16) : padSeed l = l := by
  simp [padSeed, h]

/-! ### Concrete fixtures used by witnesses and counterexamples -/

/-- A concrete stand-in for the opaque AES-ECB block decrypt, used only to
instantiate theorems at concrete inputs. -/
def testDec (key block : List Nat) : List Nat :=
  List.zipWith Nat.xor key block

/-- A store holding the six operands `DeriveSDKeys` checks (three `Source`
keys, the `SDSeed`, the two `SDKeySource` keys) and nothing else — in
particular no `Master` key. -/
def kmSixOperands : KeyManager :=
  ⟨[(⟨S128KeyType.Source, 0, 0⟩, List.replicate 16 3),
    (⟨S128KeyType.Source, 1, 0⟩, List.replicate 16 4),
    (⟨S128KeyType.Source, 2, 0⟩, List.replicate 16 5),
    (⟨S128KeyType.SDSeed, 0, 0⟩, List.replicate 16 6)],
   [(⟨S256KeyType.SDKeySource, 0, 0⟩, List.replicate 32 7),
    (⟨S256KeyType.SDKeySource, 1, 0⟩, List.replicate 32 8)]⟩

/-! ### Claim theorems -/

/-- Claim C4: for all 16-byte inputs, `GenerateKeyEncryptionKey` equals the
three-stage chain the specification describes: ECB-decrypt `kekSeed` under
`masterKey` giving intermediate 1; ECB-decrypt `source` under
intermediate 1 giving intermediate 2; and if `keySeed` is not all-zero,
ECB-decrypt `keySeed` under intermediate 2 as the result, otherwise
intermediate 2 itself. -/
theorem generateKeyEncryptionKey_matches_spec_chain
    (dec : Key128 → Key128 → Key128)
    (source master kek_seed key_seed : Key128) :
    GenerateKeyEncryptionKey dec source master kek_seed key_seed =
      GenerateKeyEncryptionKeySpec dec source master kek_seed key_seed := by
  unfold GenerateKeyEncryptionKey GenerateKeyEncryptionKeySpec
  by_cases h : key_seed = zeroKey128 <;> simp [h]

/-- Claim C9: for every already-occupied key index, `SetKey` with a second
value is a no-op that leaves the whole store (hence the originally stored
value) unchanged, in both the 128-bit and the 256-bit store. -/
theorem setKey_noop_on_occupied_slot :
    ∀ (k : KeyManager) (id : S128KeyType) (key : Key128) (f1 f2 : Nat)
      (id2 : S256KeyType) (key2 : Key256) (g1 g2 : Nat),
      (k.HasKey128 id f1 f2 = true → k.SetKey128 id key f1 f2 = k) ∧
      (k.HasKey256 id2 g1 g2 = true → k.SetKey256 id2 key2 g1 g2 = k) := by
  intro k id key f1 f2 id2 key2 g1 g2
  constructor
  · intro h
    unfold KeyManager.HasKey128 at h
    unfold KeyManager.SetKey128
    rw [if_pos h]
  · intro h
    unfold KeyManager.HasKey256 at h
    unfold KeyManager.SetKey256
    rw [if_pos h]

/-- Witness for C9 at a concrete occupied store. -/
theorem setKey_noop_on_occupied_slot_witness :
    kmSixOperands.SetKey128 S128KeyType.SDSeed (List.replicate 16 9) 0 0 =
      kmSixOperands ∧
    kmSixOperands.SetKey256 S256KeyType.SDKeySource (List.replicate 32 9) 0 0 =
      kmSixOperands :=
  ⟨(setKey_noop_on_occupied_slot kmSixOperands S128KeyType.SDSeed
      (List.replicate 16 9) 0 0 S256KeyType.SDKeySource (List.replicate 32 9)
      0 0).1 (by decide),
   (setKey_noop_on_occupied_slot kmSixOperands S128KeyType.SDSeed
      (List.replicate 16 9) 0 0 S256KeyType.SDKeySource (List.replicate 32 9)
      0 0).2 (by decide)⟩

/-- Claim C10: for every key index not present in the store, `GetKey`
returns the all-zero value of the correct width (16 bytes for the 128-bit
store, 32 for the 256-bit store) rather than failing, and `HasKey` on the
same index returns false. -/
theorem getKey_zero_and_hasKey_false_on_absent :
    ∀ (k : KeyManager) (id : S128KeyType) (f1 f2 : Nat)
      (id2 : S256KeyType) (g1 g2 : Nat),
      (lookupIdx k.s128_keys ⟨id, f1, f2⟩ = none →
        k.GetKey128 id f1 f2 = List.replicate 16 0 ∧
        k.HasKey128 id f1 f2 = false) ∧
      (lookupIdx k.s256_keys ⟨id2, g1, g2⟩ = none →
        k.GetKey256 id2 g1 g2 = List.replicate 32 0 ∧
        k.HasKey256 id2 g1 g2 = false) := by
  intro k id f1 f2 id2 g1 g2
  constructor
  · intro h
    refine ⟨getKey128_of_not_found k id f1 f2 h, ?_⟩
    unfold KeyManager.HasKey128
    rw [h]
    rfl
  · intro h
    refine ⟨getKey256_of_not_found k id2 g1 g2 h, ?_⟩
    unfold KeyManager.HasKey256
    rw [h]
    rfl

/-- Witness for C10 at the empty store. -/
theorem getKey_zero_and_hasKey_false_on_absent_witness :
    (emptyKeyManager.GetKey128 S128KeyType.Master 0 0 = List.replicate 16 0 ∧
      emptyKeyManager.HasKey128 S128KeyType.Master 0 0 = false) ∧
    (emptyKeyManager.GetKey256 S256KeyType.Header 0 0 = List.replicate 32 0 ∧
      emptyKeyManager.HasKey256 S256KeyType.Header 0 0 = false) :=
  ⟨(getKey_zero_and_hasKey_false_on_absent emptyKeyManager S128KeyType.Master
      0 0 S256KeyType.Header 0 0).1 rfl,
   (getKey_zero_and_hasKey_false_on_absent emptyKeyManager S128KeyType.Master
      0 0 S256KeyType.Header 0 0).2 rfl⟩

/-- The byte-level half-ordering round trip behind claim C8: parsing the 16
rights-identifier bytes into the `Titlekey` index `(field1, field2)` and
serialising that index back through the `SetKey` reconstruction restores
the bytes. -/
lemma rightsId_bytes_round_trip (raw : List Nat) (hlen : raw.length = 16)
    (hlt : ∀ b ∈ raw, b < 256) :
    rightsIdOfTitleKeyIndex (titleKeyIndexOfRightsId raw) = raw := by
  unfold rightsIdOfTitleKeyIndex titleKeyIndexOfRightsId
  have h1 : (raw.take 8).length = 8 := by
    rw [List.length_take]
    omega
  have h2 : ((raw.drop 8).take 8).length = 8 := by
    rw [List.length_take, List.length_drop]
    omega
  have r1 := natToLEBytes_lebytesToNat (raw.take 8)
    (fun b hb => hlt b (List.take_subset _ _ hb))
  have r2 := natToLEBytes_lebytesToNat ((raw.drop 8).take 8)
    (fun b hb => hlt b (List.drop_subset _ _ (List.take_subset _ _ hb)))
  rw [h1] at r1
  rw [h2] at r2
  simp only []
  rw [r1, r2]
  have h3 : (raw.drop 8).take 8 = raw.drop 8 :=
    List.take_of_length_le (by rw [List.length_drop]; omega)
  rw [h3]
  exact List.take_append_drop 8 raw

/-- Claim C8: the title-key parse/serialize half-ordering round-trips: the
`Titlekey` index stores `(field1, field2) = (high half, low half)` of the
rights identifier and `SetKey` rebuilds the bytes as `field2` then
`field1`, so for every 16-byte rights identifier (in particular for the
decoding of every 32-hex-digit identifier) the reconstruction equals the
original. -/
theorem titleKey_rights_id_round_trip :
    (∀ raw : List Nat, raw.length = 16 → (∀ b ∈ raw, b < 256) →
      rightsIdOfTitleKeyIndex (titleKeyIndexOfRightsId raw) = raw) ∧
    (∀ s : List Char,
      rightsIdOfTitleKeyIndex
          (titleKeyIndexOfRightsId (HexStringToArray 16 s)) =
        HexStringToArray 16 s) :=
  ⟨rightsId_bytes_round_trip,
   fun s => rightsId_bytes_round_trip (HexStringToArray 16 s)
     (hexDecodeAux_length 16 s) (hexDecodeAux_lt_256 16 s)⟩

/-- Witness for C8 at a concrete rights identifier. -/
theorem titleKey_rights_id_round_trip_witness :
    rightsIdOfTitleKeyIndex (titleKeyIndexOfRightsId
        (HexStringToArray 16 "000102030405060708090a0b0c0d0e0f".toList)) =
      HexStringToArray 16 "000102030405060708090a0b0c0d0e0f".toList ∧
    rightsIdOfTitleKeyIndex (titleKeyIndexOfRightsId (List.replicate 16 5)) =
      List.replicate 16 5 :=
  ⟨titleKey_rights_id_round_trip.2 "000102030405060708090a0b0c0d0e0f".toList,
   titleKey_rights_id_round_trip.1 (List.replicate 16 5) (by decide)
     (by decide)⟩

/-- A private file whose first 16 bytes (the marker) are all ones. -/
def priv1 : List Nat := List.replicate 16 1

/-- A 33-byte save blob: the marker matches at offset 16, leaving exactly
one byte (the value 2) after the marker. -/
def blob33 : List Nat := List.replicate 16 0 ++ List.replicate 16 1 ++ [2]

/-- A 32-byte save blob: the marker bytes sit exactly at the last possible
position (offset 16), with zero bytes following. -/
def blob32 : List Nat := List.replicate 16 0 ++ List.replicate 16 1

/-- A 48-byte save blob: marker at offset 16, followed by a full 16-byte
seed of twos. -/
def blob48 : List Nat :=
  List.replicate 16 0 ++ List.replicate 16 1 ++ List.replicate 16 2

/-- Claim C7: for every save blob containing the marker at an offset `o`
with at least 16 bytes following the 16 marker bytes, and no earlier
marker match, `DeriveSDSeed` stops at `o` and returns exactly the 16 bytes
at `o + 16`. -/
theorem deriveSDSeed_first_match_returns_seed
    (save_43 sd_private : List Nat) (o : Nat)
    (hpriv : 16 ≤ sd_private.length)
    (hmatch : readBytes save_43 o 16 = readBytes sd_private 0 16)
    (hseed : o + 32 ≤ save_43.length)
    (hfirst : ∀ k < o, readBytes save_43 k 16 ≠ readBytes sd_private 0 16) :
    DeriveSDSeed save_43 sd_private = some (readBytes save_43 (o + 16) 16) ∧
    (readBytes save_43 (o + 16) 16).length = 16 := by
  have hplen : (readBytes sd_private 0 16).length = 16 := by
    rw [readBytes_length]
    omega
  have ho : o + 16 < save_43.length := by omega
  have hscan : findOffset save_43 (readBytes sd_private 0 16) = some o := by
    unfold findOffset
    exact scanAux_eq_some save_43 _ o ho hmatch save_43.length 0 (by omega)
      (by omega) (fun k _ hk2 => hfirst k hk2)
  have hslen : (readBytes save_43 (o + 16) 16).length = 16 := by
    rw [readBytes_length]
    omega
  refine ⟨?_, hslen⟩
  unfold DeriveSDSeed
  rw [if_pos hplen]
  simp only [hscan]
  rw [padSeed_of_full _ hslen]

/-- Witness for C7: marker at offset 16 of a 48-byte blob, seed of twos. -/
theorem deriveSDSeed_first_match_returns_seed_witness :
    DeriveSDSeed blob48 priv1 = some (List.replicate 16 2) := by
  have h := (deriveSDSeed_first_match_returns_seed blob48 priv1 16 (by decide)
    (by decide) (by decide) (fun k hk => by interval_cases k <;> decide)).1
  rw [h]
  decide

/-- Counterexample to claim C3: in this 33-byte blob the marker matches at
offset 16 and only one byte follows it (fewer than the 16 the claim
demands), yet `DeriveSDSeed` returns a seed (the one available byte padded
with zeros) instead of no seed. -/
theorem deriveSDSeed_partial_trailing_returns_seed :
    DeriveSDSeed blob33 priv1 = some (2 :: List.replicate 15 0) ∧
    readBytes blob33 16 16 = readBytes priv1 0 16 ∧
    blob33.length = 33 := by
  decide

/-- Claim C3 as amended: the scan bound `offset + 0x10 < size` only
requires at least one byte after the marker, not the full 16-byte seed.  A
first match at `o` with `o + 16 < size` yields a seed — the available
bytes at `o + 16` zero-padded to 16 — even when fewer than 16 bytes
follow; only when no window within the bound matches (in particular when
the sole marker occurrence sits exactly at the last possible position,
with no byte following) does the derivation yield no seed. -/
theorem deriveSDSeed_scan_bound_one_trailing_byte :
    (∀ (save_43 sd_private : List Nat) (o : Nat), 16 ≤ sd_private.length →
      readBytes save_43 o 16 = readBytes sd_private 0 16 →
      o + 16 < save_43.length →
      (∀ k < o, readBytes save_43 k 16 ≠ readBytes sd_private 0 16) →
      DeriveSDSeed save_43 sd_private =
        some (padSeed (readBytes save_43 (o + 16) 16))) ∧
    (∀ save_43 sd_private : List Nat, 16 ≤ sd_private.length →
      (∀ k, k + 16 < save_43.length →
        readBytes save_43 k 16 ≠ readBytes sd_private 0 16) →
      DeriveSDSeed save_43 sd_private = none) := by
  constructor
  · intro save_43 sd_private o hpriv hmatch ho hfirst
    have hplen : (readBytes sd_private 0 16).length = 16 := by
      rw [readBytes_length]
      omega
    have hscan : findOffset save_43 (readBytes sd_private 0 16) = some o := by
      unfold findOffset
      exact scanAux_eq_some save_43 _ o ho hmatch save_43.length 0 (by omega)
        (by omega) (fun k _ hk2 => hfirst k hk2)
    unfold DeriveSDSeed
    rw [if_pos hplen]
    simp only [hscan]
  · intro save_43 sd_private hpriv hnone
    have hplen : (readBytes sd_private 0 16).length = 16 := by
      rw [readBytes_length]
      omega
    have hscan : findOffset save_43 (readBytes sd_private 0 16) = none := by
      unfold findOffset
      exact scanAux_eq_none save_43 _ hnone save_43.length 0
    unfold DeriveSDSeed
    rw [if_pos hplen]
    simp only [hscan]

/-- Witness for the amended C3: the partial-trailing blob yields a padded
seed; the blob whose marker sits at the last possible position with no
byte following yields none. -/
theorem deriveSDSeed_scan_bound_one_trailing_byte_witness :
    DeriveSDSeed blob33 priv1 = some (2 :: List.replicate 15 0) ∧
    DeriveSDSeed blob32 priv1 = none := by
  constructor
  · have h := deriveSDSeed_scan_bound_one_trailing_byte.1 blob33 priv1 16
      (by decide) (by decide) (by decide)
      (fun k hk => by interval_cases k <;> decide)
    rw [h]
    decide
  · exact deriveSDSeed_scan_bound_one_trailing_byte.2 blob32 priv1 (by decide)
      (fun k hk => by
        have hlen32 : blob32.length = 32 := by decide
        have hk16 : k < 16 := by omega
        interval_cases k <;> decide)

/-- A base key file line assigning the value 0x22 repeated to
`master_key_00`. -/
def baseLine : List Char :=
  "master_key_00 = 22222222222222222222222222222222".toList

/-- An autogenerated key file line assigning the value 0x11 repeated to
the same `master_key_00` index. -/
def autoLine : List Char :=
  "master_key_00 = 11111111111111111111111111111111".toList

/-- The store after loading the base key file line. -/
def kmBase : KeyManager := emptyKeyManager.LoadFromFile [baseLine] false

/-- The store after then loading the autogenerated key file line. -/
def kmAuto : KeyManager := kmBase.LoadFromFile [autoLine] false

/-- Counterexample to claim C1: `LoadFromFile` inserts with the map
assignment `s128_keys[idx] = key`, not with the first-writer-wins
`SetKey`; loading an autogenerated line after a base line for the same
index replaces the base value (0x22 bytes) with the autogenerated value
(0x11 bytes). -/
theorem autogenerated_load_overwrites_base_key :
    kmBase.GetKey128 S128KeyType.Master 0 0 = List.replicate 16 34 ∧
    kmAuto.GetKey128 S128KeyType.Master 0 0 = List.replicate 16 17 ∧
    kmAuto.GetKey128 S128KeyType.Master 0 0 ≠
      kmBase.GetKey128 S128KeyType.Master 0 0 := by
  decide

/-- Claim C1 as amended: `SetKey` into an occupied slot is indeed a silent
no-op (first writer wins), but the insertions performed while loading key
files are unconditional map assignments: after loading a recognised
general-key line, the resolved index holds the line's value whatever the
store previously held, so the autogenerated file loaded after the base
file overwrites same-index keys. -/
theorem setKey_first_writer_wins_but_load_overwrites :
    (∀ (k : KeyManager) (id : S128KeyType) (key : Key128) (f1 f2 : Nat),
      k.HasKey128 id f1 f2 = true → k.SetKey128 id key f1 f2 = k) ∧
    (∀ k : KeyManager,
      (k.LoadLine autoLine false).GetKey128 S128KeyType.Master 0 0 =
        List.replicate 16 17) := by
  constructor
  · intro k id key f1 f2 h
    unfold KeyManager.HasKey128 at h
    unfold KeyManager.SetKey128
    rw [if_pos h]
  · intro k
    rfl

/-- Witness for the amended C1: a no-op `SetKey` on an occupied concrete
store, and an overwriting load over the base store. -/
theorem setKey_first_writer_wins_but_load_overwrites_witness :
    kmSixOperands.SetKey128 S128KeyType.Source (List.replicate 16 9) 0 0 =
      kmSixOperands ∧
    (kmBase.LoadLine autoLine false).GetKey128 S128KeyType.Master 0 0 =
      List.replicate 16 17 :=
  ⟨setKey_first_writer_wins_but_load_overwrites.1 kmSixOperands
      S128KeyType.Source (List.replicate 16 9) 0 0 (by decide),
   setKey_first_writer_wins_but_load_overwrites.2 kmBase⟩

/-- Counterexample to claim C2: this store holds the six operands
`DeriveSDKeys` checks but no generation-0 master key; the claim says every
`GetKey` operand — including the master key — is `HasKey`-checked first
with a distinct missing-operand status, yet the derivation returns
`Success`: the master key is read unchecked. -/
theorem deriveSDKeys_master_unchecked_success :
    (DeriveSDKeys testDec [] kmSixOperands).1 = ResultStatus.Success ∧
    kmSixOperands.HasKey128 S128KeyType.Master 0 0 = false := by
  decide

/-- Claim C2 as amended: `DeriveSDKeys` checks the six source/seed
operands with `HasKey` before reading them, but reads the generation-0
master key via `GetKey` with no `HasKey` check: when the master key is
absent (and the six checked operands are present) the derivation proceeds
with the all-zero master key and returns `Success`; no missing-master
status exists. -/
theorem deriveSDKeys_checks_all_but_master
    (dec : Key128 → Key128 → Key128) (sd_keys : List Key256)
    (keys : KeyManager)
    (hm : keys.HasKey128 S128KeyType.Master 0 0 = false)
    (h1 : keys.HasKey128 S128KeyType.Source SourceKeyType.SDKEK.u64cast 0
      = true)
    (h2 : keys.HasKey128 S128KeyType.Source
      SourceKeyType.AESKEKGeneration.u64cast 0 = true)
    (h3 : keys.HasKey128 S128KeyType.Source
      SourceKeyType.AESKeyGeneration.u64cast 0 = true)
    (h4 : keys.HasKey128 S128KeyType.SDSeed 0 0 = true)
    (h5 : keys.HasKey256 S256KeyType.SDKeySource SDKeyType.Save.u64cast 0
      = true)
    (h6 : keys.HasKey256 S256KeyType.SDKeySource SDKeyType.NCA.u64cast 0
      = true) :
    DeriveSDKeys dec sd_keys keys =
      (ResultStatus.Success,
       [transcode256 dec
          (GenerateKeyEncryptionKey dec
            (keys.GetKey128 S128KeyType.Source SourceKeyType.SDKEK.u64cast 0)
            (List.replicate 16 0)
            (keys.GetKey128 S128KeyType.Source
              SourceKeyType.AESKEKGeneration.u64cast 0)
            (keys.GetKey128 S128KeyType.Source
              SourceKeyType.AESKeyGeneration.u64cast 0))
          (xorWithSeed
            (keys.GetKey256 S256KeyType.SDKeySource SDKeyType.Save.u64cast 0)
            (keys.GetKey128 S128KeyType.SDSeed 0 0)),
        transcode256 dec
          (GenerateKeyEncryptionKey dec
            (keys.GetKey128 S128KeyType.Source SourceKeyType.SDKEK.u64cast 0)
            (List.replicate 16 0)
            (keys.GetKey128 S128KeyType.Source
              SourceKeyType.AESKEKGeneration.u64cast 0)
            (keys.GetKey128 S128KeyType.Source
              SourceKeyType.AESKeyGeneration.u64cast 0))
          (xorWithSeed
            (keys.GetKey256 S256KeyType.SDKeySource SDKeyType.NCA.u64cast 0)
            (keys.GetKey128 S128KeyType.SDSeed 0 0))]) := by
  have hmz : keys.GetKey128 S128KeyType.Master 0 0 = List.replicate 16 0 :=
    getKey128_of_not_found keys S128KeyType.Master 0 0
      ((hasKey128_eq_false_iff keys S128KeyType.Master 0 0).mp hm)
  simp [DeriveSDKeys, h1, h2, h3, h4, h5, h6, hmz]

/-- Witness for the amended C2 at the concrete master-less store. -/
theorem deriveSDKeys_checks_all_but_master_witness :
    DeriveSDKeys testDec [] kmSixOperands =
      (ResultStatus.Success,
       [List.replicate 32 3, List.replicate 32 12]) :=
  (deriveSDKeys_checks_all_but_master testDec [] kmSixOperands (by decide)
      (by decide) (by decide) (by decide) (by decide) (by decide)
      (by decide)).trans (by decide)

/-- Claim C5: when `DeriveSDKeys` succeeds, each of the two 32-byte
storage-key sources is XORed byte-wise with the device seed repeated every
16 bytes (byte `i` with `seed[i mod 16]`), then ECB-decrypted under the
derived SD KEK, and the output lists the save key first and the
content-archive (NCA) key second. -/
theorem deriveSDKeys_xor_then_unwrap_order
    (dec : Key128 → Key128 → Key128) (sd_keys : List Key256)
    (keys : KeyManager)
    (h1 : keys.HasKey128 S128KeyType.Source SourceKeyType.SDKEK.u64cast 0
      = true)
    (h2 : keys.HasKey128 S128KeyType.Source
      SourceKeyType.AESKEKGeneration.u64cast 0 = true)
    (h3 : keys.HasKey128 S128KeyType.Source
      SourceKeyType.AESKeyGeneration.u64cast 0 = true)
    (h4 : keys.HasKey128 S128KeyType.SDSeed 0 0 = true)
    (h5 : keys.HasKey256 S256KeyType.SDKeySource SDKeyType.Save.u64cast 0
      = true)
    (h6 : keys.HasKey256 S256KeyType.SDKeySource SDKeyType.NCA.u64cast 0
      = true) :
    DeriveSDKeys dec sd_keys keys =
      (ResultStatus.Success,
       [transcode256 dec
          (GenerateKeyEncryptionKey dec
            (keys.GetKey128 S128KeyType.Source SourceKeyType.SDKEK.u64cast 0)
            (keys.GetKey128 S128KeyType.Master 0 0)
            (keys.GetKey128 S128KeyType.Source
              SourceKeyType.AESKEKGeneration.u64cast 0)
            (keys.GetKey128 S128KeyType.Source
              SourceKeyType.AESKeyGeneration.u64cast 0))
          (xorWithSeed
            (keys.GetKey256 S256KeyType.SDKeySource SDKeyType.Save.u64cast 0)
            (keys.GetKey128 S128KeyType.SDSeed 0 0)),
        transcode256 dec
          (GenerateKeyEncryptionKey dec
            (keys.GetKey128 S128KeyType.Source SourceKeyType.SDKEK.u64cast 0)
            (keys.GetKey128 S128KeyType.Master 0 0)
            (keys.GetKey128 S128KeyType.Source
              SourceKeyType.AESKEKGeneration.u64cast 0)
            (keys.GetKey128 S128KeyType.Source
              SourceKeyType.AESKeyGeneration.u64cast 0))
          (xorWithSeed
            (keys.GetKey256 S256KeyType.SDKeySource SDKeyType.NCA.u64cast 0)
            (keys.GetKey128 S128KeyType.SDSeed 0 0))]) := by
  simp [DeriveSDKeys, h1, h2, h3, h4, h5, h6]

/-- Witness for C5 at the concrete six-operand store. -/
theorem deriveSDKeys_xor_then_unwrap_order_witness :
    DeriveSDKeys testDec [] kmSixOperands =
      (ResultStatus.Success,
       [List.replicate 32 3, List.replicate 32 12]) :=
  (deriveSDKeys_xor_then_unwrap_order testDec [] kmSixOperands (by decide)
      (by decide) (by decide) (by decide) (by decide) (by decide)).trans
    (by decide)

/-- Claim C6: the six required operands are checked in the source's
precedence order — SD-KEK source, AES-KEK-generation source,
AES-key-generation source, device seed, save key source, NCA key source —
so a store missing exactly one of them gets the distinct status naming
that operand, and a store holding all six gets `Success` with exactly two
keys. -/
theorem deriveSDKeys_missing_operand_statuses
    (dec : Key128 → Key128 → Key128) (sd_keys : List Key256)
    (keys : KeyManager) :
    ((keys.HasKey128 S128KeyType.Source SourceKeyType.SDKEK.u64cast 0
        = false →
      (DeriveSDKeys dec sd_keys keys).1 =
        ResultStatus.ErrorMissingSDKEKSource) ∧
     (keys.HasKey128 S128KeyType.Source SourceKeyType.SDKEK.u64cast 0
        = true →
      keys.HasKey128 S128KeyType.Source SourceKeyType.AESKEKGeneration.u64cast
        0 = false →
      (DeriveSDKeys dec sd_keys keys).1 =
        ResultStatus.ErrorMissingAESKEKGenerationSource) ∧
     (keys.HasKey128 S128KeyType.Source SourceKeyType.SDKEK.u64cast 0
        = true →
      keys.HasKey128 S128KeyType.Source SourceKeyType.AESKEKGeneration.u64cast
        0 = true →
      keys.HasKey128 S128KeyType.Source SourceKeyType.AESKeyGeneration.u64cast
        0 = false →
      (DeriveSDKeys dec sd_keys keys).1 =
        ResultStatus.ErrorMissingAESKeyGenerationSource) ∧
     (keys.HasKey128 S128KeyType.Source SourceKeyType.SDKEK.u64cast 0
        = true →
      keys.HasKey128 S128KeyType.Source SourceKeyType.AESKEKGeneration.u64cast
        0 = true →
      keys.HasKey128 S128KeyType.Source SourceKeyType.AESKeyGeneration.u64cast
        0 = true →
      keys.HasKey128 S128KeyType.SDSeed 0 0 = false →
      (DeriveSDKeys dec sd_keys keys).1 = ResultStatus.ErrorMissingSDSeed) ∧
     (keys.HasKey128 S128KeyType.Source SourceKeyType.SDKEK.u64cast 0
        = true →
      keys.HasKey128 S128KeyType.Source SourceKeyType.AESKEKGeneration.u64cast
        0 = true →
      keys.HasKey128 S128KeyType.Source SourceKeyType.AESKeyGeneration.u64cast
        0 = true →
      keys.HasKey128 S128KeyType.SDSeed 0 0 = true →
      keys.HasKey256 S256KeyType.SDKeySource SDKeyType.Save.u64cast 0
        = false →
      (DeriveSDKeys dec sd_keys keys).1 =
        ResultStatus.ErrorMissingSDSaveKeySource) ∧
     (keys.HasKey128 S128KeyType.Source SourceKeyType.SDKEK.u64cast 0
        = true →
      keys.HasKey128 S128KeyType.Source SourceKeyType.AESKEKGeneration.u64cast
        0 = true →
      keys.HasKey128 S128KeyType.Source SourceKeyType.AESKeyGeneration.u64cast
        0 = true →
      keys.HasKey128 S128KeyType.SDSeed 0 0 = true →
      keys.HasKey256 S256KeyType.SDKeySource SDKeyType.Save.u64cast 0
        = true →
      keys.HasKey256 S256KeyType.SDKeySource SDKeyType.NCA.u64cast 0
        = false →
      (DeriveSDKeys dec sd_keys keys).1 =
        ResultStatus.ErrorMissingSDNCAKeySource) ∧
     (keys.HasKey128 S128KeyType.Source SourceKeyType.SDKEK.u64cast 0
        = true →
      keys.HasKey128 S128KeyType.Source SourceKeyType.AESKEKGeneration.u64cast
        0 = true →
      keys.HasKey128 S128KeyType.Source SourceKeyType.AESKeyGeneration.u64cast
        0 = true →
      keys.HasKey128 S128KeyType.SDSeed 0 0 = true →
      keys.HasKey256 S256KeyType.SDKeySource SDKeyType.Save.u64cast 0
        = true →
      keys.HasKey256 S256KeyType.SDKeySource SDKeyType.NCA.u64cast 0
        = true →
      (DeriveSDKeys dec sd_keys keys).1 = ResultStatus.Success ∧
      (DeriveSDKeys dec sd_keys keys).2.length = 2)) := by
  refine ⟨?_, ?_, ?_, ?_, ?_, ?_, ?_⟩
  · intro hm1
    simp [DeriveSDKeys, hm1]
  · intro h1 hm2
    simp [DeriveSDKeys, h1, hm2]
  · intro h1 h2 hm3
    simp [DeriveSDKeys, h1, h2, hm3]
  · intro h1 h2 h3 hm4
    simp [DeriveSDKeys, h1, h2, h3, hm4]
  · intro h1 h2 h3 h4 hm5
    simp [DeriveSDKeys, h1, h2, h3, h4, hm5]
  · intro h1 h2 h3 h4 h5 hm6
    simp [DeriveSDKeys, h1, h2, h3, h4, h5, hm6]
  · intro h1 h2 h3 h4 h5 h6
    constructor
    · simp [DeriveSDKeys, h1, h2, h3, h4, h5, h6]
    · simp [DeriveSDKeys, h1, h2, h3, h4, h5, h6]

/-- `kmSixOperands` with the SD-KEK source removed. -/
def kmNoSDKEK : KeyManager :=
  ⟨[(⟨S128KeyType.Source, 1, 0⟩, List.replicate 16 4),
    (⟨S128KeyType.Source, 2, 0⟩, List.replicate 16 5),
    (⟨S128KeyType.SDSeed, 0, 0⟩, List.replicate 16 6)],
   [(⟨S256KeyType.SDKeySource, 0, 0⟩, List.replicate 32 7),
    (⟨S256KeyType.SDKeySource, 1, 0⟩, List.replicate 32 8)]⟩

/-- `kmSixOperands` with the AES-KEK-generation source removed. -/
def kmNoKEKGen : KeyManager :=
  ⟨[(⟨S128KeyType.Source, 0, 0⟩, List.replicate 16 3),
    (⟨S128KeyType.Source, 2, 0⟩, List.replicate 16 5),
    (⟨S128KeyType.SDSeed, 0, 0⟩, List.replicate 16 6)],
   [(⟨S256KeyType.SDKeySource, 0, 0⟩, List.replicate 32 7),
    (⟨S256KeyType.SDKeySource, 1, 0⟩, List.replicate 32 8)]⟩

/-- `kmSixOperands` with the AES-key-generation source removed. -/
def kmNoKeyGen : KeyManager :=
  ⟨[(⟨S128KeyType.Source, 0, 0⟩, List.replicate 16 3),
    (⟨S128KeyType.Source, 1, 0⟩, List.replicate 16 4),
    (⟨S128KeyType.SDSeed, 0, 0⟩, List.replicate 16 6)],
   [(⟨S256KeyType.SDKeySource, 0, 0⟩, List.replicate 32 7),
    (⟨S256KeyType.SDKeySource, 1, 0⟩, List.replicate 32 8)]⟩

/-- `kmSixOperands` with the device seed removed. -/
def kmNoSeed : KeyManager :=
  ⟨[(⟨S128KeyType.Source, 0, 0⟩, List.replicate 16 3),
    (⟨S128KeyType.Source, 1, 0⟩, List.replicate 16 4),
    (⟨S128KeyType.Source, 2, 0⟩, List.replicate 16 5)],
   [(⟨S256KeyType.SDKeySource, 0, 0⟩, List.replicate 32 7),
    (⟨S256KeyType.SDKeySource, 1, 0⟩, List.replicate 32 8)]⟩

/-- `kmSixOperands` with the save key source removed. -/
def kmNoSave : KeyManager :=
  ⟨[(⟨S128KeyType.Source, 0, 0⟩, List.replicate 16 3),
    (⟨S128KeyType.Source, 1, 0⟩, List.replicate 16 4),
    (⟨S128KeyType.Source, 2, 0⟩, List.replicate 16 5),
    (⟨S128KeyType.SDSeed, 0, 0⟩, List.replicate 16 6)],
   [(⟨S256KeyType.SDKeySource, 1, 0⟩, List.replicate 32 8)]⟩

/-- `kmSixOperands` with the NCA key source removed. -/
def kmNoNCA : KeyManager :=
  ⟨[(⟨S128KeyType.Source, 0, 0⟩, List.replicate 16 3),
    (⟨S128KeyType.Source, 1, 0⟩, List.replicate 16 4),
    (⟨S128KeyType.Source, 2, 0⟩, List.replicate 16 5),
    (⟨S128KeyType.SDSeed, 0, 0⟩, List.replicate 16 6)],
   [(⟨S256KeyType.SDKeySource, 0, 0⟩, List.replicate 32 7)]⟩

/-- Witness for C6: each one-operand-missing concrete store draws its own
distinct status, and the full store succeeds with two keys. -/
theorem deriveSDKeys_missing_operand_statuses_witness :
    (DeriveSDKeys testDec [] kmNoSDKEK).1 =
      ResultStatus.ErrorMissingSDKEKSource ∧
    (DeriveSDKeys testDec [] kmNoKEKGen).1 =
      ResultStatus.ErrorMissingAESKEKGenerationSource ∧
    (DeriveSDKeys testDec [] kmNoKeyGen).1 =
      ResultStatus.ErrorMissingAESKeyGenerationSource ∧
    (DeriveSDKeys testDec [] kmNoSeed).1 = ResultStatus.ErrorMissingSDSeed ∧
    (DeriveSDKeys testDec [] kmNoSave).1 =
      ResultStatus.ErrorMissingSDSaveKeySource ∧
    (DeriveSDKeys testDec [] kmNoNCA).1 =
      ResultStatus.ErrorMissingSDNCAKeySource ∧
    (DeriveSDKeys testDec [] kmSixOperands).1 = ResultStatus.Success ∧
    (DeriveSDKeys testDec [] kmSixOperands).2.length = 2 :=
  ⟨(deriveSDKeys_missing_operand_statuses testDec [] kmNoSDKEK).1 (by decide),
   (deriveSDKeys_missing_operand_statuses testDec [] kmNoKEKGen).2.1
     (by decide) (by decide),
   (deriveSDKeys_missing_operand_statuses testDec [] kmNoKeyGen).2.2.1
     (by decide) (by decide) (by decide),
   (deriveSDKeys_missing_operand_statuses testDec [] kmNoSeed).2.2.2.1
     (by decide) (by decide) (by decide) (by decide),
   (deriveSDKeys_missing_operand_statuses testDec [] kmNoSave).2.2.2.2.1
     (by decide) (by decide) (by decide) (by decide) (by decide),
   (deriveSDKeys_missing_operand_statuses testDec [] kmNoNCA).2.2.2.2.2.1
     (by decide) (by decide) (by decide) (by decide) (by decide) (by decide),
   (deriveSDKeys_missing_operand_statuses testDec [] kmSixOperands).2.2.2.2.2.2
     (by decide) (by decide) (by decide) (by decide) (by decide) (by decide)⟩

end Core.Crypto
